import Mathlib

set_option autoImplicit false

namespace CustomEmojiPicker

/-!
Shallow embedding of the SillyTavern custom emoji picker extension
(`index.js`, plus the variant shipped alongside the stylesheet).

The embedded variant is the full one: it carries the duplicate-name check in
`addCustomEmoji`, the `importCustomEmojis` merge, and the export/clear-all
management paths.  The browser-provided pieces (`localStorage`, `JSON.parse`
/ `JSON.stringify`) are modelled at the level the code observes them:

* the single storage slot `custom_emojis` either is absent
  (`localStorage.getItem` returns `null`), holds a string that fails
  `JSON.parse`, or holds a string that parses to an array of emoji records;
* `JSON.stringify` of a record array always succeeds and round-trips through
  `JSON.parse`; a `localStorage.setItem` failure (quota) is caught inside
  `saveCustomEmojis`, so a failed write leaves the slot as it was.  The
  success of the underlying write is threaded as the explicit `writeOk`
  argument of `saveCustomEmojis`.
-/

/-- A persisted custom emoji record.  `addCustomEmoji` builds these as
`{ id, name, src: url, keywords: [name, ...keywords], skins: [{src: url}] }`;
`skins` is modelled as the list of its entries' `src` strings.  A JS record
with a missing/`undefined` string field is modelled by the empty string,
which is falsy exactly like `undefined` under the `!emoji.id` checks. -/
structure CustomEmoji where
  id : String
  name : String
  src : String
  keywords : List String
  skins : List String
  deriving Repr, DecidableEq

/-- The persisted storage slot `custom_emojis`, as `loadCustomEmojis`
distinguishes it: absent (`getItem` returns `null`, a falsy value), present
but failing `JSON.parse` (the `catch` branch), or a JSON encoding of an
array of records. -/
inductive Slot where
  | absent
  | corrupt
  | stored (emojis : List CustomEmoji)
  deriving Repr, DecidableEq

/-- `loadCustomEmojis()`: `stored ? JSON.parse(stored) : []` wrapped in
try/catch; an absent slot or a parse failure yields `[]`. -/
def loadCustomEmojis : Slot → List CustomEmoji
  | .absent => []
  | .corrupt => []
  | .stored emojis => emojis

/-- `saveCustomEmojis(emojis)`: `setItem(key, JSON.stringify(emojis))` in
try/catch.  `writeOk` is whether the underlying `setItem` succeeds; on
failure the error is caught (log + alert) and the slot keeps its prior
value.  The function itself never throws. -/
def saveCustomEmojis (writeOk : Bool) (slot : Slot) (emojis : List CustomEmoji) : Slot :=
  if writeOk then .stored emojis else slot

/-- The `newEmoji` object literal built inside `addCustomEmoji`. -/
def mkNewEmoji (id name url : String) (keywords : List String) : CustomEmoji :=
  ⟨id, name, url, name :: keywords, [url]⟩

/-- The upsert step of `addCustomEmoji`: `findIndex(emoji => emoji.id === id)`
then either `customEmojis[existingIndex] = newEmoji` or
`customEmojis.push(newEmoji)`. -/
def upsertById (emojis : List CustomEmoji) (e : CustomEmoji) : List CustomEmoji :=
  match emojis.findIdx? (fun x => x.id == e.id) with
  | some i => emojis.set i e
  | none => emojis ++ [e]

/-- `addCustomEmoji(id, name, url, keywords)`: loads the collection, rejects
(returns `false`, store untouched) when
`customEmojis.some(emoji => emoji.name === name && emoji.id !== id)`,
otherwise upserts by `id` and saves; returns `true` unconditionally on that
path because `saveCustomEmojis` catches its own errors. -/
def addCustomEmoji (writeOk : Bool) (slot : Slot) (id name url : String)
    (keywords : List String) : Slot × Bool :=
  let customEmojis := loadCustomEmojis slot
  if customEmojis.any (fun e => e.name == name && e.id != id) then
    (slot, false)
  else
    (saveCustomEmojis writeOk slot (upsertById customEmojis (mkNewEmoji id name url keywords)),
      true)

/-- `removeCustomEmoji(id)`: filters out every record whose `id` matches and
saves the filtered collection; returns `true` unconditionally because
`saveCustomEmojis` catches its own errors. -/
def removeCustomEmoji (writeOk : Bool) (slot : Slot) (id : String) : Slot × Bool :=
  let customEmojis := loadCustomEmojis slot
  let filteredEmojis := customEmojis.filter (fun e => e.id != id)
  (saveCustomEmojis writeOk slot filteredEmojis, true)

/-- The payload handed to `importCustomEmojis` after `file.text()`:
either the text fails `JSON.parse`, or parses to a non-array
(`!Array.isArray(importedEmojis)`), or parses to an array of records. -/
inductive ImportPayload where
  | notJson
  | notArray
  | arr (records : List CustomEmoji)
  deriving Repr, DecidableEq

/-- The per-record validation of `importCustomEmojis`:
`!emoji.id || !emoji.name || !emoji.src` throws; a record passes when all
three strings are non-empty (truthy). -/
def validRecord (e : CustomEmoji) : Bool :=
  e.id != "" && e.name != "" && e.src != ""

/-- One iteration of the merge loop of `importCustomEmojis`: look up the
incoming record's `id` in the accumulated collection
(`mergedEmojis.findIndex(e => e.id === importedEmoji.id)`), replace in place
when found, else push and bump `importCount`. -/
def mergeStep : List CustomEmoji × Nat → CustomEmoji → List CustomEmoji × Nat
  | (mergedEmojis, importCount), e =>
    match mergedEmojis.findIdx? (fun x => x.id == e.id) with
    | some i => (mergedEmojis.set i e, importCount)
    | none => (mergedEmojis ++ [e], importCount + 1)

/-- Outcome of `importCustomEmojis`: the final slot, the boolean return
value, the two counts reported in the success alert
(`importCount` new, `importedEmojis.length - importCount` updated), and the
list of collections passed to `saveCustomEmojis`, in call order. -/
structure ImportResult where
  slot : Slot
  ok : Bool
  addedCount : Nat
  updatedCount : Nat
  saves : List (List CustomEmoji)
  deriving Repr, DecidableEq

/-- `importCustomEmojis(file)`: any parse failure, non-array payload, or
record with a missing required field throws into the `catch` (return
`false`) before anything is written; otherwise the imported records are
merged by `id` over `[...existingEmojis]` and the merged collection is
persisted by the single `saveCustomEmojis(mergedEmojis)` call. -/
def importCustomEmojis (writeOk : Bool) (slot : Slot) (payload : ImportPayload) : ImportResult :=
  match payload with
  | .notJson => ⟨slot, false, 0, 0, []⟩
  | .notArray => ⟨slot, false, 0, 0, []⟩
  | .arr importedEmojis =>
    if importedEmojis.all validRecord then
      let existingEmojis := loadCustomEmojis slot
      let merged := importedEmojis.foldl mergeStep (existingEmojis, 0)
      ⟨saveCustomEmojis writeOk slot merged.1, true,
        merged.2, importedEmojis.length - merged.2, [merged.1]⟩
    else
      ⟨slot, false, 0, 0, []⟩

/-- A category of the emoji-mart dataset: `{ id, name, emojis: [ids] }`. -/
structure Category where
  id : String
  name : String
  emojis : List String
  deriving Repr, DecidableEq

/-- An entry of the dataset's flat `emojis` lookup table: either an opaque
entry of the base `@emoji-mart/data` package or a custom record. -/
inductive Entry where
  | base (payload : String)
  | custom (e : CustomEmoji)
  deriving Repr, DecidableEq

/-- The emoji-mart dataset shape the composer manipulates: the `categories`
array, the `emojis` object (a JS object, i.e. an insertion-ordered map,
modelled as an association list with distinct keys understood), and the
remaining fields of `data` that the `{...data, ...}` spread copies
verbatim, collapsed into `extra`. -/
structure EmojiData where
  categories : List Category
  emojis : List (String × Entry)
  extra : Nat
  deriving Repr, DecidableEq

/-- JS object key assignment `obj[k] = v` (also the effect of spreading a
later object over an earlier one, key by key): an existing key keeps its
position and gets the new value, a fresh key is appended. -/
def objInsert (m : List (String × Entry)) (k : String) (v : Entry) : List (String × Entry) :=
  if m.any (fun p => p.1 == k) then
    m.map (fun p => if p.1 == k then (k, v) else p)
  else
    m ++ [(k, v)]

/-- JS object property lookup `obj[k]` on the modelled object. -/
def objLookup (m : List (String × Entry)) (k : String) : Option Entry :=
  (m.find? (fun p => p.1 == k)).map (fun p => p.2)

/-- The configured id of the synthetic category, `CUSTOM_EMOJI_CATEGORY`. -/
def CUSTOM_EMOJI_CATEGORY : String := "custom"

/-- `createCustomEmojiData()`, with the `loadCustomEmojis()` read made an
explicit argument: returns `data` itself when the custom collection is
empty; otherwise appends the one synthetic category
`{ id: 'custom', name: 'Custom', emojis: customEmojis.map(e => e.id) }` and
extends the `emojis` table with one entry per custom record keyed by its
`id` (`{...data.emojis, ...customEmojis.reduce((acc, e) => acc[e.id] = e)}`,
i.e. the custom entries assigned over the base table in collection order). -/
def createCustomEmojiData (data : EmojiData) (customEmojis : List CustomEmoji) : EmojiData :=
  if customEmojis.length = 0 then data
  else
    ⟨data.categories ++ [⟨CUSTOM_EMOJI_CATEGORY, "Custom", customEmojis.map (fun e => e.id)⟩],
      customEmojis.foldl (fun acc e => objInsert acc e.id (.custom e)) data.emojis,
      data.extra⟩

/-- The emoji descriptor emoji-mart passes to `insertEmoji`: optional
`native` glyph, the `id`, optional image `src`.  `none` models an absent
(`undefined`) field. -/
structure InputEmoji where
  native : Option String
  id : String
  src : Option String
  deriving Repr, DecidableEq

/-- JS truthiness of an optional string field: `undefined`/`null` and the
empty string are falsy. -/
def strTruthy : Option String → Bool
  | none => false
  | some s => s != ""

/-- The text-resolution branch of `insertEmoji`:
`if (inputEmoji.src && !inputEmoji.native)` insert the markdown image
reference, else insert `inputEmoji.native`.  The result is `none` when the
`else` branch reads an absent `native`. -/
def insertEmojiText (e : InputEmoji) : Option String :=
  if strTruthy e.src && !strTruthy e.native then
    some ("![" ++ e.id ++ "](" ++ e.src.getD "" ++ ")")
  else
    e.native

/-- The events the picker's show/hide code reacts to.  A body click is
`outsideClick` when its target is inside neither the picker nor the trigger
button (the guard of the `document.body` click handler), `insideClick`
otherwise; `triggerClick` is a click whose target is the trigger button
itself; a keyup is `escapeKeyUp` when `event.key === 'Escape'`. -/
inductive PickerEvent where
  | triggerClick
  | outsideClick
  | insideClick
  | escapeKeyUp
  | otherKeyUp
  | emojiSelect
  deriving Repr, DecidableEq

/-- The picker's visibility transition.  `visible` is the negation of
`picker.classList.contains('displayNone')`.  The trigger-button handler
calls `classList.toggle`; the body click handler hides only when visible
and outside; the keyup handler hides only when visible and the key is
Escape; `insertEmoji` (emoji selection) unconditionally adds
`displayNone`. -/
def pickerStep (visible : Bool) : PickerEvent → Bool
  | .triggerClick => !visible
  | .outsideClick => if visible then false else visible
  | .insideClick => visible
  | .escapeKeyUp => if visible then false else visible
  | .otherKeyUp => visible
  | .emojiSelect => false

/-! ### Helper lemmas -/

/-- Setting a position of a list to the element it already holds is the
identity. -/
theorem set_eq_self_of_getElem? {α : Type} :
    ∀ (l : List α) (i : Nat) (a : α), l[i]? = some a → l.set i a = l
  | [], i, a, h => by simp at h
  | x :: t, 0, a, h => by
    simp at h
    simp [h]
  | x :: t, i + 1, a, h => by
    simp at h
    simp [set_eq_self_of_getElem? t i a h]

/-! ### C6: save/load round-trip -/

/-- C6: for every prior storage state and every record list, saving the list
(with the underlying write succeeding) and then loading yields exactly the
saved list, in the same order. -/
theorem save_load_roundtrip (slot : Slot) (records : List CustomEmoji) :
    loadCustomEmojis (saveCustomEmojis true slot records) = records := rfl

/-! ### C8: load degrades to the empty collection -/

/-- C8: `loadCustomEmojis` is a total function of the storage state (it never
raises: the `try`/`catch` swallows parse errors): an absent slot yields the
empty collection, a slot whose contents fail to decode yields the empty
collection, and a slot decoding to an array of records yields that array
as-is. -/
theorem loadCustomEmojis_spec :
    loadCustomEmojis Slot.absent = [] ∧
    loadCustomEmojis Slot.corrupt = [] ∧
    ∀ records : List CustomEmoji, loadCustomEmojis (Slot.stored records) = records :=
  ⟨rfl, rfl, fun _ => rfl⟩

/-! ### C9: outside-click dismissal -/

/-- C9: an outside click taken from the visible state hides the picker, an
outside click taken from the hidden state is a no-op (the state stays
hidden), and no outside click, escape keyup, or emoji selection ever leaves
the picker visible. -/
theorem pickerStep_dismiss_spec :
    pickerStep true PickerEvent.outsideClick = false ∧
    pickerStep false PickerEvent.outsideClick = false ∧
    ∀ v : Bool,
      pickerStep v PickerEvent.outsideClick ≠ true ∧
      pickerStep v PickerEvent.escapeKeyUp ≠ true ∧
      pickerStep v PickerEvent.emojiSelect ≠ true := by
  decide

/-! ### C10: remove always succeeds, removes all matches, idempotent -/

/-- C10: `removeCustomEmoji` returns `true` for every storage state, id and
write outcome; when no record carries the id the persisted collection is
unchanged; removing twice equals removing once; and a single call removes
every record whose id equals the argument. -/
theorem removeCustomEmoji_spec (writeOk : Bool) (slot : Slot) (id : String) :
    (removeCustomEmoji writeOk slot id).2 = true ∧
    ((loadCustomEmojis slot).all (fun e => e.id != id) = true →
      loadCustomEmojis (removeCustomEmoji writeOk slot id).1 = loadCustomEmojis slot) ∧
    removeCustomEmoji true (removeCustomEmoji true slot id).1 id
      = removeCustomEmoji true slot id ∧
    ∀ e, e ∈ loadCustomEmojis (removeCustomEmoji true slot id).1 → ¬ e.id = id := by
  refine ⟨rfl, ?_, ?_, ?_⟩
  · intro h
    cases writeOk with
    | false => rfl
    | true =>
      show (loadCustomEmojis slot).filter (fun e => e.id != id) = loadCustomEmojis slot
      exact List.filter_eq_self.mpr (List.all_eq_true.mp h)
  · show (Slot.stored (((loadCustomEmojis slot).filter (fun e => e.id != id)).filter
        (fun e => e.id != id)), true)
      = (Slot.stored ((loadCustomEmojis slot).filter (fun e => e.id != id)), true)
    rw [List.filter_eq_self.mpr (fun a ha => (List.mem_filter.mp ha).2)]
  · intro e he
    have hmem := List.mem_filter.mp he
    simpa [bne_iff_ne] using hmem.2

/-- Witness for C10 at a concrete store: removing an id that is not present
returns `true` and leaves the loaded collection unchanged. -/
theorem removeCustomEmoji_spec_witness :
    (removeCustomEmoji true (Slot.stored [⟨"a", "A", "s", ["A"], ["s"]⟩]) "zzz").2 = true ∧
    loadCustomEmojis (removeCustomEmoji true
        (Slot.stored [⟨"a", "A", "s", ["A"], ["s"]⟩]) "zzz").1
      = loadCustomEmojis (Slot.stored [⟨"a", "A", "s", ["A"], ["s"]⟩]) :=
  ⟨(removeCustomEmoji_spec true (Slot.stored [⟨"a", "A", "s", ["A"], ["s"]⟩]) "zzz").1,
    (removeCustomEmoji_spec true (Slot.stored [⟨"a", "A", "s", ["A"], ["s"]⟩]) "zzz").2.1
      (by decide)⟩

/-! ### C7: insertion text resolution -/

/-- C7 counterexample: the descriptor `{native: "", id: "wave",
src: "https://x/y.png"}` carries a native-glyph field, so the claim demands
the glyph (the empty string) verbatim; the code's truthiness test
`inputEmoji.src && !inputEmoji.native` treats the empty `native` as absent
and produces the image markdown instead. -/
theorem insertEmojiText_cex :
    insertEmojiText ⟨some "", "wave", some "https://x/y.png"⟩
      = some "![wave](https://x/y.png)" ∧
    insertEmojiText ⟨some "", "wave", some "https://x/y.png"⟩ ≠ some "" := by
  decide

/-- C7 amended: the inserted text is the image markdown `![id](src)` exactly
when `src` is a non-empty string and the `native` field is absent or empty
(JS-falsy); in every other case the `native` field is inserted verbatim. -/
theorem insertEmojiText_spec (e : InputEmoji) :
    (∀ s, e.src = some s → s ≠ "" → (e.native = none ∨ e.native = some "") →
      insertEmojiText e = some ("![" ++ e.id ++ "](" ++ s ++ ")")) ∧
    (∀ g, e.native = some g → g ≠ "" → insertEmojiText e = some g) ∧
    (strTruthy e.src = false ∨ strTruthy e.native = true →
      insertEmojiText e = e.native) := by
  refine ⟨?_, ?_, ?_⟩
  · intro s hs hne hnat
    rcases hnat with hn | hn <;>
      simp [insertEmojiText, strTruthy, hs, hn, hne]
  · intro g hg hne
    simp [insertEmojiText, strTruthy, hg, hne]
  · intro h
    rcases h with h | h <;>
      simp [insertEmojiText, h]

/-- Witness for C7 (amended) at the spec's two scenario descriptors: a
custom-emoji descriptor with only `src` yields the markdown reference, and a
standard-emoji descriptor with only `native` yields the glyph. -/
theorem insertEmojiText_spec_witness :
    insertEmojiText ⟨none, "wave", some "https://x/y.png"⟩
      = some ("![" ++ "wave" ++ "](" ++ "https://x/y.png" ++ ")") ∧
    insertEmojiText ⟨some "😀", "grinning", none⟩ = some "😀" :=
  ⟨(insertEmojiText_spec ⟨none, "wave", some "https://x/y.png"⟩).1
      "https://x/y.png" rfl (by decide) (Or.inl rfl),
    (insertEmojiText_spec ⟨some "😀", "grinning", none⟩).2.1 "😀" rfl (by decide)⟩

/-! ### C5: dataset composition -/

/-- Replacing the value stored under one key leaves `find?` for any other key
unchanged. -/
theorem find?_replaceAt (m : List (String × Entry)) (k k' : String) (v : Entry)
    (hne : k ≠ k') :
    (m.map (fun p => if p.1 == k' then (k', v) else p)).find? (fun p => p.1 == k)
      = m.find? (fun p => p.1 == k) := by
  induction m with
  | nil => rfl
  | cons q t ih =>
    rw [List.map_cons]
    by_cases hq : q.1 = k'
    · have hgq : (if q.1 == k' then (k', v) else q) = (k', v) := by simp [hq]
      have h1 : (((k', v) : String × Entry).1 == k) = false := by simp [Ne.symm hne]
      have h2 : (q.1 == k) = false := by simp [hq, Ne.symm hne]
      rw [hgq]
      simp only [List.find?_cons, h1, h2]
      exact ih
    · have hgq : (if q.1 == k' then (k', v) else q) = q := by simp [hq]
      rw [hgq]
      by_cases hk : q.1 = k
      · have hp : (q.1 == k) = true := by simp [hk]
        simp only [List.find?_cons, hp]
      · have hp : (q.1 == k) = false := by simp [hk]
        simp only [List.find?_cons, hp]
        exact ih

/-- `objInsert` at one key does not change the lookup of a different key. -/
theorem objLookup_objInsert_ne (m : List (String × Entry)) (k k' : String) (v : Entry)
    (h : k ≠ k') :
    objLookup (objInsert m k' v) k = objLookup m k := by
  unfold objInsert
  by_cases hm : m.any (fun p => p.1 == k') = true
  · simp only [hm, if_true, objLookup, find?_replaceAt m k k' v h]
  · simp only [hm, if_false, objLookup, List.find?_append, Bool.false_eq_true]
    have h1 : ([(k', v)].find? (fun p => p.1 == k)) = none := by
      have hke : (((k', v) : String × Entry).1 == k) = false := by simp [Ne.symm h]
      simp only [List.find?_cons, hke]
      rfl
    rw [h1]
    cases m.find? (fun p => p.1 == k) <;> rfl

/-- Folding the custom entries into the base table does not change the lookup
of a key that is no custom record's id. -/
theorem objLookup_composeFold (custom : List CustomEmoji) :
    ∀ (m : List (String × Entry)) (k : String),
      custom.all (fun e => e.id != k) = true →
      objLookup (custom.foldl (fun acc e => objInsert acc e.id (Entry.custom e)) m) k
        = objLookup m k := by
  induction custom with
  | nil => intro m k _; rfl
  | cons e t ih =>
    intro m k h
    rw [List.all_cons, Bool.and_eq_true] at h
    have hne : k ≠ e.id := by
      intro hk
      rw [bne_iff_ne] at h
      exact h.1 hk.symm
    rw [List.foldl_cons, ih _ k h.2, objLookup_objInsert_ne m k e.id _ hne]

/-- C5: composing with the empty custom collection returns the base dataset
itself; composing with a non-empty collection appends exactly one category
(id `custom`, name `Custom`) whose members are the custom records' ids in
collection order, carries every other field of the base dataset over
unchanged, and leaves the lookup of every key that is not a custom record's
id exactly as in the base table. -/
theorem createCustomEmojiData_spec (data : EmojiData) (custom : List CustomEmoji)
    (h : custom ≠ []) :
    createCustomEmojiData data [] = data ∧
    (createCustomEmojiData data custom).categories
      = data.categories
        ++ [⟨CUSTOM_EMOJI_CATEGORY, "Custom", custom.map (fun e => e.id)⟩] ∧
    (createCustomEmojiData data custom).extra = data.extra ∧
    ∀ k : String, custom.all (fun e => e.id != k) = true →
      objLookup (createCustomEmojiData data custom).emojis k
        = objLookup data.emojis k := by
  have hlen : custom.length ≠ 0 := by
    simpa [List.length_eq_zero] using h
  refine ⟨rfl, ?_, ?_, ?_⟩
  · simp [createCustomEmojiData, hlen]
  · simp [createCustomEmojiData, hlen]
  · intro k hk
    simp only [createCustomEmojiData, hlen, if_false]
    exact objLookup_composeFold custom data.emojis k hk

/-- Witness for C5 at a one-record custom collection over a one-category,
one-entry base dataset: the synthetic category is appended and the base
entry `grin` is still found unchanged. -/
theorem createCustomEmojiData_spec_witness :
    (createCustomEmojiData
        ⟨[⟨"people", "People", ["grin"]⟩], [("grin", Entry.base "g")], 7⟩
        [⟨"wave", "Wave", "https://x/y.png", ["Wave"], ["https://x/y.png"]⟩]).categories
      = (⟨[⟨"people", "People", ["grin"]⟩], [("grin", Entry.base "g")], 7⟩
          : EmojiData).categories
        ++ [⟨CUSTOM_EMOJI_CATEGORY, "Custom", ["wave"]⟩] ∧
    objLookup (createCustomEmojiData
        ⟨[⟨"people", "People", ["grin"]⟩], [("grin", Entry.base "g")], 7⟩
        [⟨"wave", "Wave", "https://x/y.png", ["Wave"], ["https://x/y.png"]⟩]).emojis "grin"
      = objLookup (⟨[⟨"people", "People", ["grin"]⟩], [("grin", Entry.base "g")], 7⟩
          : EmojiData).emojis "grin" :=
  ⟨(createCustomEmojiData_spec
      ⟨[⟨"people", "People", ["grin"]⟩], [("grin", Entry.base "g")], 7⟩
      [⟨"wave", "Wave", "https://x/y.png", ["Wave"], ["https://x/y.png"]⟩]
      (by decide)).2.1,
    (createCustomEmojiData_spec
      ⟨[⟨"people", "People", ["grin"]⟩], [("grin", Entry.base "g")], 7⟩
      [⟨"wave", "Wave", "https://x/y.png", ["Wave"], ["https://x/y.png"]⟩]
      (by decide)).2.2.2 "grin" (by decide)⟩

/-! ### C1 / C4: add -/

/-- When no other record uses the new name, `addCustomEmoji` saves the
upserted collection and returns `true`. -/
theorem addCustomEmoji_of_no_conflict (slot : Slot) (id name url : String)
    (kw : List String)
    (hname : (loadCustomEmojis slot).any (fun e => e.name == name && e.id != id) = false) :
    addCustomEmoji true slot id name url kw
      = (Slot.stored (upsertById (loadCustomEmojis slot) (mkNewEmoji id name url kw)),
          true) := by
  unfold addCustomEmoji
  simp [hname, saveCustomEmojis]

/-- When the id is already present at first index `i` and no other record
uses the new name, the collection after `addCustomEmoji` is the old one with
position `i` overwritten. -/
theorem addCustomEmoji_load_set (slot : Slot) (id name url : String) (kw : List String)
    (i : Nat)
    (hname : (loadCustomEmojis slot).any (fun e => e.name == name && e.id != id) = false)
    (hidx : (loadCustomEmojis slot).findIdx? (fun e => e.id == id) = some i) :
    loadCustomEmojis (addCustomEmoji true slot id name url kw).1
      = (loadCustomEmojis slot).set i (mkNewEmoji id name url kw) := by
  have hidx2 : (loadCustomEmojis slot).findIdx?
      (fun x => x.id == (mkNewEmoji id name url kw).id) = some i := hidx
  rw [addCustomEmoji_of_no_conflict slot id name url kw hname]
  show upsertById (loadCustomEmojis slot) (mkNewEmoji id name url kw)
      = (loadCustomEmojis slot).set i (mkNewEmoji id name url kw)
  unfold upsertById
  rw [hidx2]

/-- C1: when some stored record has the requested name under a different id,
`addCustomEmoji` returns `false` and the storage slot is exactly what it was
(nothing added, nothing modified); otherwise it returns `true` and the
persisted collection is the old one upserted by id — the new record is
appended when the id is fresh, and overwrites the first record holding the
id when it is already present. -/
theorem addCustomEmoji_spec (slot : Slot) (id name url : String) (kw : List String) :
    ((loadCustomEmojis slot).any (fun e => e.name == name && e.id != id) = true →
      addCustomEmoji true slot id name url kw = (slot, false)) ∧
    ((loadCustomEmojis slot).any (fun e => e.name == name && e.id != id) = false →
      (addCustomEmoji true slot id name url kw).2 = true ∧
      ((loadCustomEmojis slot).all (fun e => e.id != id) = true →
        loadCustomEmojis (addCustomEmoji true slot id name url kw).1
          = loadCustomEmojis slot ++ [mkNewEmoji id name url kw]) ∧
      ∀ i, (loadCustomEmojis slot).findIdx? (fun e => e.id == id) = some i →
        loadCustomEmojis (addCustomEmoji true slot id name url kw).1
          = (loadCustomEmojis slot).set i (mkNewEmoji id name url kw)) := by
  constructor
  · intro h
    unfold addCustomEmoji
    simp [h]
  · intro h
    refine ⟨?_, ?_, ?_⟩
    · rw [addCustomEmoji_of_no_conflict slot id name url kw h]
    · intro hall
      have hnone : (loadCustomEmojis slot).findIdx?
          (fun x => x.id == (mkNewEmoji id name url kw).id) = none := by
        rw [List.findIdx?_eq_none_iff]
        intro x hx
        have hx2 := List.all_eq_true.mp hall x hx
        show (x.id == id) = false
        simpa [bne_iff_ne] using hx2
      rw [addCustomEmoji_of_no_conflict slot id name url kw h]
      show upsertById (loadCustomEmojis slot) (mkNewEmoji id name url kw)
          = loadCustomEmojis slot ++ [mkNewEmoji id name url kw]
      unfold upsertById
      rw [hnone]
    · intro i hi
      exact addCustomEmoji_load_set slot id name url kw i h hi

/-- Witness for C1 at a concrete store: the name collision `N` under id `y`
makes adding id `x` with name `N` a rejected no-op, while adding a fresh id
`z` with the unused name `Z` appends the new record. -/
theorem addCustomEmoji_spec_witness :
    addCustomEmoji true (Slot.stored [⟨"y", "N", "s", ["N"], ["s"]⟩]) "x" "N" "u" []
      = (Slot.stored [⟨"y", "N", "s", ["N"], ["s"]⟩], false) ∧
    loadCustomEmojis
        (addCustomEmoji true (Slot.stored [⟨"y", "N", "s", ["N"], ["s"]⟩]) "z" "Z" "u" []).1
      = loadCustomEmojis (Slot.stored [⟨"y", "N", "s", ["N"], ["s"]⟩])
        ++ [mkNewEmoji "z" "Z" "u" []] :=
  ⟨(addCustomEmoji_spec (Slot.stored [⟨"y", "N", "s", ["N"], ["s"]⟩]) "x" "N" "u" []).1
      (by decide),
    ((addCustomEmoji_spec (Slot.stored [⟨"y", "N", "s", ["N"], ["s"]⟩]) "z" "Z" "u" []).2
      (by decide)).2.1 (by decide)⟩

/-- C4 counterexample: the store holds `{id:"y", name:"N"}` and
`{id:"x", name:"M"}`; calling add with the existing id `x` and the name `N`
does NOT replace the record at position 1 — the duplicate-name check fires
first, the call returns `false`, and position 1 still holds the old
record. -/
theorem addCustomEmoji_inplace_cex :
    (loadCustomEmojis (addCustomEmoji true
        (Slot.stored [⟨"y", "N", "sy", ["N"], ["sy"]⟩, ⟨"x", "M", "sx", ["M"], ["sx"]⟩])
        "x" "N" "u" []).1)[1]?
      = some ⟨"x", "M", "sx", ["M"], ["sx"]⟩ ∧
    (⟨"x", "M", "sx", ["M"], ["sx"]⟩ : CustomEmoji) ≠ mkNewEmoji "x" "N" "u" [] ∧
    (addCustomEmoji true
        (Slot.stored [⟨"y", "N", "sy", ["N"], ["sy"]⟩, ⟨"x", "M", "sx", ["M"], ["sx"]⟩])
        "x" "N" "u" []).2 = false := by
  decide

/-- C4 amended: provided no other record already uses the new name (the
duplicate-name check would otherwise reject the call) and `i` is the first
position holding id `X`, adding with id `X` replaces the record at `i` in
place: the collection keeps its length, the new record sits at position `i`,
every other position is unchanged, and the call returns `true` (so add never
appends a second record with an existing id). -/
theorem addCustomEmoji_inplace_spec (slot : Slot) (id name url : String)
    (kw : List String) (i : Nat)
    (hname : (loadCustomEmojis slot).any (fun e => e.name == name && e.id != id) = false)
    (hidx : (loadCustomEmojis slot).findIdx? (fun e => e.id == id) = some i) :
    (loadCustomEmojis (addCustomEmoji true slot id name url kw).1).length
      = (loadCustomEmojis slot).length ∧
    (loadCustomEmojis (addCustomEmoji true slot id name url kw).1)[i]?
      = some (mkNewEmoji id name url kw) ∧
    (∀ j, j ≠ i → (loadCustomEmojis (addCustomEmoji true slot id name url kw).1)[j]?
      = (loadCustomEmojis slot)[j]?) ∧
    (addCustomEmoji true slot id name url kw).2 = true := by
  have hset := addCustomEmoji_load_set slot id name url kw i hname hidx
  have hlt : i < (loadCustomEmojis slot).length := by
    rcases List.findIdx?_eq_some_iff_getElem.mp hidx with ⟨hl, _⟩
    exact hl
  refine ⟨?_, ?_, ?_, ?_⟩
  · rw [hset, List.length_set]
  · rw [hset]
    exact List.getElem?_set_self hlt
  · intro j hj
    rw [hset]
    exact List.getElem?_set_ne (Ne.symm hj)
  · rw [addCustomEmoji_of_no_conflict slot id name url kw hname]

/-- Witness for C4 (amended) at a concrete two-record store: adding with the
existing id `x` under the fresh name `X2` overwrites position 1 and keeps
the length at 2. -/
theorem addCustomEmoji_inplace_witness :
    (loadCustomEmojis (addCustomEmoji true
        (Slot.stored [⟨"a", "A", "sa", ["A"], ["sa"]⟩, ⟨"x", "M", "sx", ["M"], ["sx"]⟩])
        "x" "X2" "u" []).1)[1]?
      = some (mkNewEmoji "x" "X2" "u" []) ∧
    (loadCustomEmojis (addCustomEmoji true
        (Slot.stored [⟨"a", "A", "sa", ["A"], ["sa"]⟩, ⟨"x", "M", "sx", ["M"], ["sx"]⟩])
        "x" "X2" "u" []).1).length
      = (loadCustomEmojis
          (Slot.stored [⟨"a", "A", "sa", ["A"], ["sa"]⟩,
            ⟨"x", "M", "sx", ["M"], ["sx"]⟩])).length := by
  have h := addCustomEmoji_inplace_spec
    (Slot.stored [⟨"a", "A", "sa", ["A"], ["sa"]⟩, ⟨"x", "M", "sx", ["M"], ["sx"]⟩])
    "x" "X2" "u" [] 1 (by decide) (by decide)
  exact ⟨h.2.1, h.1⟩

/-! ### C2 / C3: import merge -/

/-- Id membership in a collection is id membership in its id sequence. -/
theorem any_id_over_map (l : List CustomEmoji) (y : String) :
    l.any (fun x => x.id == y) = (l.map (fun e => e.id)).any (fun s => s == y) := by
  induction l with
  | nil => rfl
  | cons x t ih => simp [List.any_cons, ih]

/-- Two collections with the same id sequence agree on every id-membership
test. -/
theorem any_id_congr (a b : List CustomEmoji)
    (h : a.map (fun e => e.id) = b.map (fun e => e.id)) (y : String) :
    a.any (fun x => x.id == y) = b.any (fun x => x.id == y) := by
  rw [any_id_over_map, any_id_over_map, h]

/-- A merge step on a record whose id is already present replaces in place:
the count is untouched and the id sequence (hence the length) is
preserved. -/
theorem mergeStep_mem (m : List CustomEmoji) (c : Nat) (e : CustomEmoji)
    (h : m.any (fun x => x.id == e.id) = true) :
    (mergeStep (m, c) e).2 = c ∧
    (mergeStep (m, c) e).1.map (fun x => x.id) = m.map (fun x => x.id) ∧
    (mergeStep (m, c) e).1.length = m.length := by
  have hs : (m.findIdx? (fun x => x.id == e.id)).isSome = true := by
    rw [List.findIdx?_isSome]
    exact h
  obtain ⟨i, hi⟩ := Option.isSome_iff_exists.mp hs
  rcases List.findIdx?_eq_some_iff_getElem.mp hi with ⟨hl, hp, _⟩
  simp only [mergeStep]
  rw [hi]
  refine ⟨rfl, ?_, by simp⟩
  rw [List.map_set]
  apply set_eq_self_of_getElem?
  rw [List.getElem?_map, List.getElem?_eq_getElem hl]
  have he : m[i].id = e.id := eq_of_beq hp
  simp [he]

/-- A merge step on a record whose id is absent appends it and counts it as
new. -/
theorem mergeStep_notMem (m : List CustomEmoji) (c : Nat) (e : CustomEmoji)
    (h : m.any (fun x => x.id == e.id) = false) :
    mergeStep (m, c) e = (m ++ [e], c + 1) := by
  have hn : m.findIdx? (fun x => x.id == e.id) = none := by
    rw [List.findIdx?_eq_none_iff]
    intro x hx
    have hx2 := List.any_eq_false.mp h x hx
    simpa using hx2
  simp only [mergeStep]
  rw [hn]

/-- The merge loop of `importCustomEmojis`, run over imported records with
pairwise-distinct ids: the count increases by the number of imported records
whose ids are not in the initial collection, the length grows by this same
number, and the id sequence is the initial one followed by the
fresh incoming ids in order. -/
theorem foldl_mergeStep_spec (imported : List CustomEmoji) :
    ∀ (m : List CustomEmoji) (c : Nat),
      (imported.map (fun e => e.id)).Nodup →
      (imported.foldl mergeStep (m, c)).2
        = c + (imported.filter
            (fun e => !(m.any (fun x => x.id == e.id)))).length ∧
      (imported.foldl mergeStep (m, c)).1.length
        = m.length + (imported.filter
            (fun e => !(m.any (fun x => x.id == e.id)))).length ∧
      (imported.foldl mergeStep (m, c)).1.map (fun e => e.id)
        = m.map (fun e => e.id)
          ++ (imported.filter
            (fun e => !(m.any (fun x => x.id == e.id)))).map (fun e => e.id) := by
  induction imported with
  | nil => intro m c _; simp
  | cons e t ih =>
    intro m c hnd
    rw [List.map_cons, List.nodup_cons] at hnd
    obtain ⟨hid, hnd2⟩ := hnd
    cases hmem : m.any (fun x => x.id == e.id) with
    | true =>
      obtain ⟨hc, hids, hlen⟩ := mergeStep_mem m c e hmem
      have hpair : mergeStep (m, c) e = ((mergeStep (m, c) e).1, c) := by
        have h0 : mergeStep (m, c) e
            = ((mergeStep (m, c) e).1, (mergeStep (m, c) e).2) := rfl
        rw [hc] at h0
        exact h0
      have ihm := ih (mergeStep (m, c) e).1 c hnd2
      obtain ⟨ih1, ih2, ih3⟩ := ihm
      have hfeq : t.filter (fun a => !((mergeStep (m, c) e).1.any
            (fun x => x.id == a.id)))
          = t.filter (fun a => !(m.any (fun x => x.id == a.id))) := by
        apply List.filter_congr
        intro a _
        rw [any_id_congr _ _ hids a.id]
      have hhead : (fun a => !(m.any (fun x => x.id == a.id))) e = false := by
        simp only [hmem, Bool.not_true]
      have hfilter : (e :: t).filter (fun a => !(m.any (fun x => x.id == a.id)))
          = t.filter (fun a => !(m.any (fun x => x.id == a.id))) := by
        rw [List.filter_cons_of_neg]
        simp [hhead]
      rw [List.foldl_cons, hpair] at *
      rw [hfeq] at ih1 ih2 ih3
      refine ⟨?_, ?_, ?_⟩
      · rw [ih1, hfilter]
      · rw [ih2, hfilter, hlen]
      · rw [ih3, hfilter, hids]
    | false =>
      have hstep := mergeStep_notMem m c e hmem
      have ihm := ih (m ++ [e]) (c + 1) hnd2
      obtain ⟨ih1, ih2, ih3⟩ := ihm
      have hfeq : t.filter (fun a => !((m ++ [e]).any (fun x => x.id == a.id)))
          = t.filter (fun a => !(m.any (fun x => x.id == a.id))) := by
        apply List.filter_congr
        intro a ha
        have hane : (e.id == a.id) = false := by
          have : a.id ∈ t.map (fun x => x.id) := List.mem_map_of_mem _ ha
          have hne : e.id ≠ a.id := by
            intro hcontra
            rw [hcontra] at hid
            exact hid this
          simp [hne]
        simp [List.any_append, hane]
      have hhead : (fun a => !(m.any (fun x => x.id == a.id))) e = true := by
        simp only [hmem, Bool.not_false]
      have hfilter : (e :: t).filter (fun a => !(m.any (fun x => x.id == a.id)))
          = e :: t.filter (fun a => !(m.any (fun x => x.id == a.id))) := by
        rw [List.filter_cons_of_pos]
        exact hhead
      rw [List.foldl_cons, hstep]
      rw [hfeq] at ih1 ih2 ih3
      refine ⟨?_, ?_, ?_⟩
      · rw [ih1, hfilter]
        simp only [List.length_cons]
        omega
      · rw [ih2, hfilter]
        simp only [List.length_cons, List.length_append, List.length_nil]
        omega
      · rw [ih3, hfilter]
        simp [List.map_append]

/-- Unfolding lemma: a fully valid array payload takes the merge-and-save
path. -/
theorem importCustomEmojis_arr_valid (writeOk : Bool) (slot : Slot)
    (imported : List CustomEmoji) (hval : imported.all validRecord = true) :
    importCustomEmojis writeOk slot (ImportPayload.arr imported)
      = ⟨saveCustomEmojis writeOk slot
            (imported.foldl mergeStep (loadCustomEmojis slot, 0)).1,
          true,
          (imported.foldl mergeStep (loadCustomEmojis slot, 0)).2,
          imported.length - (imported.foldl mergeStep (loadCustomEmojis slot, 0)).2,
          [(imported.foldl mergeStep (loadCustomEmojis slot, 0)).1]⟩ := by
  unfold importCustomEmojis
  dsimp only
  rw [hval]
  rfl

/-- Unfolding lemma: an array payload with an invalid record is rejected
before anything happens. -/
theorem importCustomEmojis_arr_invalid (writeOk : Bool) (slot : Slot)
    (imported : List CustomEmoji) (hbad : imported.all validRecord = false) :
    importCustomEmojis writeOk slot (ImportPayload.arr imported)
      = ⟨slot, false, 0, 0, []⟩ := by
  unfold importCustomEmojis
  dsimp only
  rw [hbad]
  rfl

/-- C2 counterexample: importing two records with the same id `a` into an
empty store is M = 2 records with K = 0 id-overlaps, so the claim demands
`addedCount = 2` and a final collection of 2 records; the merge loop looks
each record up in the accumulating collection, so the second `a` overwrites
the first and the code reports one addition and one update over a
one-record result. -/
theorem importCustomEmojis_counts_cex :
    (importCustomEmojis true (Slot.stored [])
        (ImportPayload.arr [⟨"a", "A", "s", [], []⟩, ⟨"a", "A", "s", [], []⟩])).addedCount
      = 1 ∧
    (importCustomEmojis true (Slot.stored [])
        (ImportPayload.arr [⟨"a", "A", "s", [], []⟩, ⟨"a", "A", "s", [], []⟩])).addedCount
      ≠ 2 ∧
    (importCustomEmojis true (Slot.stored [])
        (ImportPayload.arr [⟨"a", "A", "s", [], []⟩, ⟨"a", "A", "s", [], []⟩])).updatedCount
      = 1 ∧
    (loadCustomEmojis (importCustomEmojis true (Slot.stored [])
        (ImportPayload.arr [⟨"a", "A", "s", [], []⟩, ⟨"a", "A", "s", [], []⟩])).slot).length
      = 1 := by
  decide

/-- C2 amended: for every existing collection of N records and every imported
list of M valid records with pairwise-distinct ids, of which K have an id
already present in the existing collection, the import reports
`addedCount = M - K` and `updatedCount = K`, and the persisted collection
afterwards has exactly N + (M - K) records. -/
theorem importCustomEmojis_counts_spec (slot : Slot) (imported : List CustomEmoji)
    (hval : imported.all validRecord = true)
    (hnd : (imported.map (fun e => e.id)).Nodup) :
    (importCustomEmojis true slot (ImportPayload.arr imported)).addedCount
      = imported.length
        - (imported.filter (fun e => (loadCustomEmojis slot).any
            (fun x => x.id == e.id))).length ∧
    (importCustomEmojis true slot (ImportPayload.arr imported)).updatedCount
      = (imported.filter (fun e => (loadCustomEmojis slot).any
          (fun x => x.id == e.id))).length ∧
    (loadCustomEmojis
        (importCustomEmojis true slot (ImportPayload.arr imported)).slot).length
      = (loadCustomEmojis slot).length
        + (imported.length
          - (imported.filter (fun e => (loadCustomEmojis slot).any
              (fun x => x.id == e.id))).length) := by
  obtain ⟨h1, h2, _⟩ := foldl_mergeStep_spec imported (loadCustomEmojis slot) 0 hnd
  have hsum : imported.length
      = (imported.filter (fun e => (loadCustomEmojis slot).any
          (fun x => x.id == e.id))).length
        + (imported.filter (fun e => !((loadCustomEmojis slot).any
            (fun x => x.id == e.id)))).length :=
    @List.length_eq_length_filter_add CustomEmoji imported
      (fun e => (loadCustomEmojis slot).any (fun x => x.id == e.id))
  rw [importCustomEmojis_arr_valid true slot imported hval]
  refine ⟨?_, ?_, ?_⟩
  · show (imported.foldl mergeStep (loadCustomEmojis slot, 0)).2
        = imported.length - _
    rw [h1]
    omega
  · show imported.length - (imported.foldl mergeStep (loadCustomEmojis slot, 0)).2
        = _
    rw [h1]
    omega
  · show (imported.foldl mergeStep (loadCustomEmojis slot, 0)).1.length
        = (loadCustomEmojis slot).length + _
    rw [h2]
    omega

/-- Witness for C2 (amended) at the spec's own scenario: store `[a]`, import
`[{id:"a"}, {id:"b"}]` → one addition, one update, two records. -/
theorem importCustomEmojis_counts_witness :
    (importCustomEmojis true (Slot.stored [⟨"a", "A1", "s1", [], []⟩])
        (ImportPayload.arr
          [⟨"a", "A2", "s2", [], []⟩, ⟨"b", "B", "s3", [], []⟩])).addedCount = 1 ∧
    (importCustomEmojis true (Slot.stored [⟨"a", "A1", "s1", [], []⟩])
        (ImportPayload.arr
          [⟨"a", "A2", "s2", [], []⟩, ⟨"b", "B", "s3", [], []⟩])).updatedCount = 1 ∧
    (loadCustomEmojis (importCustomEmojis true (Slot.stored [⟨"a", "A1", "s1", [], []⟩])
        (ImportPayload.arr
          [⟨"a", "A2", "s2", [], []⟩, ⟨"b", "B", "s3", [], []⟩])).slot).length = 2 := by
  have h := importCustomEmojis_counts_spec (Slot.stored [⟨"a", "A1", "s1", [], []⟩])
    [⟨"a", "A2", "s2", [], []⟩, ⟨"b", "B", "s3", [], []⟩] (by decide) (by decide)
  refine ⟨?_, ?_, ?_⟩
  · rw [h.1]
    decide
  · rw [h.2.1]
    decide
  · rw [h.2.2]
    decide

/-- C3: a payload that fails to parse, is not an array, or contains a record
with an empty required field makes the import fail as a whole — the storage
slot is exactly what it was and no save call happens; a fully valid payload
succeeds and the merged result is persisted by a single save call. -/
theorem importCustomEmojis_atomic_spec (slot : Slot) (payload : ImportPayload) :
    ((payload = ImportPayload.notJson ∨ payload = ImportPayload.notArray ∨
      ∃ l, payload = ImportPayload.arr l ∧ l.all validRecord = false) →
      (importCustomEmojis true slot payload).slot = slot ∧
      (importCustomEmojis true slot payload).ok = false ∧
      (importCustomEmojis true slot payload).saves = []) ∧
    (∀ l, payload = ImportPayload.arr l → l.all validRecord = true →
      (importCustomEmojis true slot payload).ok = true ∧
      (importCustomEmojis true slot payload).saves
        = [loadCustomEmojis (importCustomEmojis true slot payload).slot]) := by
  constructor
  · rintro (rfl | rfl | ⟨l, rfl, hbad⟩)
    · exact ⟨rfl, rfl, rfl⟩
    · exact ⟨rfl, rfl, rfl⟩
    · rw [importCustomEmojis_arr_invalid true slot l hbad]
      exact ⟨rfl, rfl, rfl⟩
  · rintro l rfl hval
    rw [importCustomEmojis_arr_valid true slot l hval]
    exact ⟨rfl, rfl⟩

/-- Witness for C3 at concrete payloads: a record with an empty id makes
the import a rejected no-op (slot kept, no save), while a valid one-record
payload is persisted by exactly one save holding the merged collection. -/
theorem importCustomEmojis_atomic_witness :
    (importCustomEmojis true (Slot.stored [⟨"a", "A", "s", [], []⟩])
        (ImportPayload.arr [⟨"", "B", "s2", [], []⟩])).slot
      = Slot.stored [⟨"a", "A", "s", [], []⟩] ∧
    (importCustomEmojis true (Slot.stored [⟨"a", "A", "s", [], []⟩])
        (ImportPayload.arr [⟨"", "B", "s2", [], []⟩])).saves = [] ∧
    (importCustomEmojis true (Slot.stored [⟨"a", "A", "s", [], []⟩])
        (ImportPayload.arr [⟨"b", "B", "s2", [], []⟩])).saves
      = [loadCustomEmojis (importCustomEmojis true (Slot.stored [⟨"a", "A", "s", [], []⟩])
          (ImportPayload.arr [⟨"b", "B", "s2", [], []⟩])).slot] := by
  refine ⟨?_, ?_, ?_⟩
  · exact ((importCustomEmojis_atomic_spec (Slot.stored [⟨"a", "A", "s", [], []⟩])
      (ImportPayload.arr [⟨"", "B", "s2", [], []⟩])).1
        (Or.inr (Or.inr ⟨_, rfl, by decide⟩))).1
  · exact ((importCustomEmojis_atomic_spec (Slot.stored [⟨"a", "A", "s", [], []⟩])
      (ImportPayload.arr [⟨"", "B", "s2", [], []⟩])).1
        (Or.inr (Or.inr ⟨_, rfl, by decide⟩))).2.2
  · exact ((importCustomEmojis_atomic_spec (Slot.stored [⟨"a", "A", "s", [], []⟩])
      (ImportPayload.arr [⟨"b", "B", "s2", [], []⟩])).2 _ rfl (by decide)).2

end CustomEmojiPicker
